import Mathlib

/-!
A shallow embedding of the conference-archive uploader, covering
`src/zen/api.py` (the Zenodo remote client) and
`src/scripts/upload_to_zenodo_seq.py` (the per-paper reconciler `upload`
and the batch driver `archive`), together with theorems checking the
specification's testable properties against the embedded code.

Conventions of the embedding:
* Machine-level HTTP is abstracted to the *requests made* (`HttpReq`) and
  the *response supplied by the server* (`Resp`), passed in as a parameter,
  so every client operation is a pure function from its inputs and the
  server's reply to the list of requests it issued and an
  `Except ApiFailure` result mirroring the Python exceptions it raises.
* The reconciler layer records the ordered trace of zen client calls it
  makes (`Ev`) over a remote in which every issued call succeeds with the
  replies collected in `Remote`; its own Python exceptions (KeyError on the
  conference lookup, UnboundLocalError, TypeError) are the `ScriptErr`
  error results.
* `zen.models` is imported by the script but its module is not part of the
  repository sources here; its record types are modelled from the spec
  (see `Conf`), and its pure metadata merging does not influence any
  control flow or call trace the claims speak about.
-/

namespace Zen

/-- Deployment stages: the keys of `TOKENS` / `HOSTS` in zen/api.py
(`DEV = 'dev'`, `PROD = 'prod'`). -/
inductive Stage
  | dev
  | prod
  deriving DecidableEq, Repr

/-- The HTTP requests the client layer can issue: `probe` is the
`requests.get('http://google.com')` inside `_is_online`; `fetchFile url` is
the `requests.get(filepath)` used by `upload_file` / `reupload_file` when the
filepath is a URL and no file pointer was passed; `api op s` is the
operation's own request to the stage's Zenodo host. -/
inductive HttpReq
  | probe
  | fetchFile (url : String)
  | api (op : String) (stage : Stage)
  deriving DecidableEq, Repr

/-- The JSON body of a Zenodo response, restricted to the fields this program
reads: `id` (read by `create_id` via `.get('id')`), `links.latest_draft`
(read by `new_version_for_id`), `links.download` (read by the reconciler from
`upload_file`'s result), `doi` and `doi_url` (read from `publish`'s result),
plus an opaque `payload` standing for every other field of the JSON object
(the whole body is what `ZenodoApiError(resp.json())` carries). -/
structure Body where
  id : Option Nat := none
  linksLatestDraft : Option String := none
  linksDownload : String := ""
  doi : String := ""
  doiUrl : String := ""
  payload : String := ""
  deriving DecidableEq, Repr

/-- An HTTP response: status code and JSON body. -/
structure Resp where
  status : Nat
  body : Body
  deriving DecidableEq, Repr

/-- The exceptions the client layer can raise:
`valueError` is the `ValueError` from `verify_token` when no `stage=` keyword
is given; `envError s` is the `EnvironmentError` when the stage's token is
unset; `offline` is the `ZenodoApiError('not connected to the internet!')`;
`apiRespError b` is the `ZenodoApiError(resp.json())` raised on a rejected
request; `keyError k` is the `KeyError` from `resp.json()['links']` in
`new_version_for_id`; `intParseError` is the `ValueError` from `int(...)`
there. -/
inductive ApiFailure
  | valueError
  | envError (stage : Stage)
  | offline
  | apiRespError (b : Body)
  | keyError (k : String)
  | intParseError
  deriving DecidableEq, Repr

/-- The process environment the client reads once at import time: the token
table `TOKENS` (from `ZENODO_TOKEN_PROD` / `ZENODO_TOKEN_DEV`) and whether
the connectivity probe in `_is_online` succeeds. -/
structure ApiEnv where
  tokens : Stage → Option String
  online : Bool

/-- The `verify_token` decorator (zen/api.py lines 45-59) wrapping every
client operation: it reads `stage` from the keyword arguments and raises
`ValueError` when absent; raises `EnvironmentError` when the stage's token is
unset — before anything touches the network; only then `_is_online` issues
its probe request, and a failed probe raises the offline `ZenodoApiError`.
Only after all three checks does the wrapped operation run. -/
def withVerify {α : Type} (env : ApiEnv) (stage : Option Stage)
    (body : Stage → List HttpReq × Except ApiFailure α) :
    List HttpReq × Except ApiFailure α :=
  match stage with
  | none => ([], .error .valueError)
  | some s =>
    if (env.tokens s).isNone then ([], .error (.envError s))
    else if !env.online then ([.probe], .error .offline)
    else
      let r := body s
      (HttpReq.probe :: r.1, r.2)

/-- `create_id` (zen/api.py lines 62-88): POST a new deposition; raise
`ZenodoApiError(resp.json())` iff the status is ≥ 300; otherwise return
`resp.json().get('id')`. -/
def create_id (env : ApiEnv) (stage : Option Stage) (resp : Resp) :
    List HttpReq × Except ApiFailure (Option Nat) :=
  withVerify env stage fun s =>
    ([.api ("create") s],
     if 300 ≤ resp.status then .error (.apiRespError resp.body)
     else .ok resp.body.id)

/-- The characters after the last `/` (accumulator version): walking the
character list, a `/` resets the accumulated segment. -/
def lastSlashSegAux : List Char → List Char → List Char
  | [], acc => acc
  | c :: cs, acc =>
    if c = '/' then lastSlashSegAux cs []
    else lastSlashSegAux cs (acc ++ [c])

/-- Python `s.split('/')[-1]`: the substring after the last `/` (the whole
string when there is no `/`). -/
def lastPathSeg (s : String) : String := String.mk (lastSlashSegAux s.data [])

/-- Accumulate a decimal numeral; a non-digit character fails. -/
def natOfDigitsAux : List Char → Nat → Option Nat
  | [], acc => some acc
  | c :: cs, acc =>
    if ('0').toNat ≤ c.toNat ∧ c.toNat ≤ ('9').toNat
    then natOfDigitsAux cs (acc * 10 + (c.toNat - ('0').toNat))
    else none

/-- Python `int(s)` restricted to the plain non-negative decimal numerals
the deposit URLs end in: fails (`ValueError`) on the empty string or any
non-digit character. -/
def natOfString? (s : String) : Option Nat :=
  match s.data with
  | [] => none
  | l => natOfDigitsAux l 0

/-- `new_version_for_id` (zen/api.py lines 90-123): POST the newversion
action, then — before any status check — read
`resp.json()['links']['latest_draft']` (KeyError when the body has no such
field) and parse the last `/`-separated segment with `int(...)` (ValueError
when it is not a number); only then raise `ZenodoApiError(resp.json())` iff
the status is ≥ 300, else return the new id and the response. -/
def new_version_for_id (env : ApiEnv) (zid : Nat) (stage : Option Stage)
    (resp : Resp) : List HttpReq × Except ApiFailure (Nat × Resp) :=
  withVerify env stage fun s =>
    ([.api ("newversion") s],
     match resp.body.linksLatestDraft with
     | none => .error (.keyError ("links"))
     | some url =>
       match natOfString? (lastPathSeg url) with
       | none => .error .intParseError
       | some newId =>
         if 300 ≤ resp.status then .error (.apiRespError resp.body)
         else .ok (newId, resp))

/-- `upload_file` (zen/api.py lines 125-162): when the filepath is a URL and
no file pointer was given, first GET the file; then POST the multipart
upload; raise `ZenodoApiError(resp.json())` iff the status is ≥ 300, else
return the response body. `hasFp` models whether the optional `fp` argument
was passed. -/
def upload_file (env : ApiEnv) (zid : Nat) (filepath : String) (hasFp : Bool)
    (stage : Option Stage) (resp : Resp) :
    List HttpReq × Except ApiFailure Body :=
  withVerify env stage fun s =>
    ((if filepath.startsWith ("http") && !hasFp
        then [HttpReq.fetchFile filepath] else [])
       ++ [.api ("upload") s],
     if 300 ≤ resp.status then .error (.apiRespError resp.body)
     else .ok resp.body)

/-- `os.path.basename` for the Unix-style paths this program handles: the
part after the last `/`. -/
def basenameOf (p : String) : String := lastPathSeg p

/-- The filename `reupload_file` attaches (zen/api.py lines 184-187): with a
version `v`, every occurrence of `.pdf` in the basename is replaced by
`_v.pdf`; without one, the plain basename. -/
def reuploadBasename (filepath : String) (version : Option Nat) : String :=
  match version with
  | some v => (basenameOf filepath).replace (".pdf") ("_" ++ toString v ++ ".pdf")
  | none => basenameOf filepath

/-- `reupload_file` (zen/api.py lines 164-204): like `upload_file`, but the
attached filename carries the version suffix, and the error check exempts
status 400: it raises `ZenodoApiError(resp.json())` iff the status is ≥ 300
AND is not 400 (a `pdb.set_trace()` suspension precedes the raise; modelled
as a no-op). -/
def reupload_file (env : ApiEnv) (zid : Nat) (filepath : String) (hasFp : Bool)
    (version : Option Nat) (stage : Option Stage) (resp : Resp) :
    List HttpReq × Except ApiFailure Body :=
  withVerify env stage fun s =>
    ((if filepath.startsWith ("http") && !hasFp
        then [HttpReq.fetchFile filepath] else [])
       ++ [.api ("upload") s],
     if 300 ≤ resp.status ∧ resp.status ≠ 400
       then .error (.apiRespError resp.body)
     else .ok resp.body)

/-- `update_metadata` (zen/api.py lines 206-232): PUT the metadata; raise
`ZenodoApiError(resp.json())` iff the status is ≥ 300, else return the body.
(The metadata dict itself is never inspected by the client.) -/
def update_metadata (env : ApiEnv) (zid : Nat) (stage : Option Stage)
    (resp : Resp) : List HttpReq × Except ApiFailure Body :=
  withVerify env stage fun s =>
    ([.api ("update") s],
     if 300 ≤ resp.status then .error (.apiRespError resp.body)
     else .ok resp.body)

/-- `publish` (zen/api.py lines 235-257): POST the publish action; raise
`ZenodoApiError(resp.json())` iff the status is ≥ 300, else return the
body. -/
def publish (env : ApiEnv) (zid : Nat) (stage : Option Stage) (resp : Resp) :
    List HttpReq × Except ApiFailure Body :=
  withVerify env stage fun s =>
    ([.api ("publish") s],
     if 300 ≤ resp.status then .error (.apiRespError resp.body)
     else .ok resp.body)

/-- `edit` (zen/api.py lines 259-279): POST the edit action and return the
raw response object, with NO status check: it never raises for any status,
leaving rejection to be read off the returned response by the caller. -/
def edit (env : ApiEnv) (zid : Nat) (stage : Option Stage) (resp : Resp) :
    List HttpReq × Except ApiFailure Resp :=
  withVerify env stage fun s =>
    ([.api ("edit") s], .ok resp)

/-- `get` (zen/api.py lines 281-303): GET the deposition; raise
`ZenodoApiError(resp.json())` iff the status is ≥ 300, else return the
body. -/
def get (env : ApiEnv) (zid : Nat) (stage : Option Stage) (resp : Resp) :
    List HttpReq × Except ApiFailure Body :=
  withVerify env stage fun s =>
    ([.api ("fetch") s],
     if 300 ≤ resp.status then .error (.apiRespError resp.body)
     else .ok resp.body)

/-- `list_items` (zen/api.py lines 306-314): GET the deposition list; raise
`ZenodoApiError(resp.json())` iff the status is ≥ 300, else return the
body. -/
def list_items (env : ApiEnv) (stage : Option Stage) (resp : Resp) :
    List HttpReq × Except ApiFailure Body :=
  withVerify env stage fun s =>
    ([.api ("list") s],
     if 300 ≤ resp.status then .error (.apiRespError resp.body)
     else .ok resp.body)

/-! ## Python exception classes

A small model of the Python class hierarchy of every exception this program
raises, to settle which handlers intercept which failures. -/

/-- The relevant Python exception classes. `zenodoApiError` is the class
declared at zen/api.py line 41. -/
inductive PyClass
  | baseException
  | exception
  | osError
  | valueError
  | lookupError
  | keyError
  | nameError
  | unboundLocalError
  | typeError
  | zenodoApiError
  deriving DecidableEq, Repr

/-- Immediate base class of each modelled class. The built-ins follow
Python's standard hierarchy (`EnvironmentError` is an alias of `OSError`);
`ZenodoApiError` derives from `BaseException` as written in zen/api.py
line 41: `class ZenodoApiError(BaseException)`. -/
def pyBase : PyClass → Option PyClass
  | .baseException => none
  | .exception => some .baseException
  | .osError => some .exception
  | .valueError => some .exception
  | .lookupError => some .exception
  | .keyError => some .lookupError
  | .nameError => some .exception
  | .unboundLocalError => some .nameError
  | .typeError => some .exception
  | .zenodoApiError => some .baseException

/-- The chain of ancestors of a class (itself included), with fuel bounding
the depth (the modelled hierarchy has depth at most 4). -/
def ancestorsFrom : Nat → PyClass → List PyClass
  | 0, _ => []
  | fuel + 1, c =>
    c :: (match pyBase c with
          | none => []
          | some p => ancestorsFrom fuel p)

/-- Python `issubclass c d` over the modelled hierarchy. -/
def isSubclassOf (c d : PyClass) : Bool := (ancestorsFrom 8 c).contains d

/-- An `except H:` clause intercepts a raised exception of class `c` iff `c`
is a subclass of `H`. -/
def handlerCatches (handler raised : PyClass) : Bool := isSubclassOf raised handler

/-- The Python class of each client-layer failure: `ValueError`,
`EnvironmentError` (= `OSError`), `ZenodoApiError` for both the offline check
and remote rejections, `KeyError`, and `ValueError` for the failed
`int(...)`. -/
def failureClass : ApiFailure → PyClass
  | .valueError => .valueError
  | .envError _ => .osError
  | .offline => .zenodoApiError
  | .apiRespError _ => .zenodoApiError
  | .keyError _ => .keyError
  | .intParseError => .valueError

/-- The failures raised as `ZenodoApiError`: a remote rejection or the
offline check. -/
def isZenodoApiFailure : ApiFailure → Bool
  | .offline => true
  | .apiRespError _ => true
  | _ => false

end Zen

namespace Script

open Zen

/-- A local ISMIR paper record, restricted to the fields the reconciler
reads or writes: title, year (the conference lookup key), author string,
page range, abstract, `ee` (the file location), and the optional
`zenodo_id` / `doi` / `url` written back after publishing. -/
structure Paper where
  title : String
  year : String
  author : String := ""
  pages : String := ""
  abstract : String := ""
  ee : String
  zenodo_id : Option Nat := none
  doi : Option String := none
  url : Option String := none
  deriving DecidableEq, Repr

/-- Modelled from the spec: `zen.models.IsmirConference` is imported by the
script but the `zen.models` module is not among the repository sources here.
Per the spec it is read-only per-year venue metadata (name, location,
proceedings title); none of its fields influence the reconciler's control
flow or call trace. -/
structure Conf where
  name : String := ""
  place : String := ""
  proceedingsTitle : String := ""
  deriving DecidableEq, Repr

/-- A file entry of a cached remote snapshot, carrying the remote-reported
checksum. -/
structure FileRec where
  checksum : String
  deriving DecidableEq, Repr

/-- A record of the previous output catalog (`old_zenodo` in the script): the
remote snapshot cached from the last sync, with its remote id, title,
keywords and file list (each file with its remote-reported checksum). -/
structure OldZen where
  zenodo_id : Nat
  title : String
  keywords : List String := []
  files : List FileRec := []
  deriving DecidableEq, Repr

/-- The remote's behaviour during one reconciliation pass in which every
issued client call succeeds: the id returned by `create_id`, the
`links.download` of `upload_file`'s response, the `doi` / `doi_url` of
`publish`'s response, and the HTTP status of `edit`'s raw response (which,
notably, the reconciler never inspects). -/
structure Remote where
  createdId : Nat
  downloadLink : String
  publishDoi : String
  publishDoiUrl : String
  editStatus : Nat := 200
  deriving DecidableEq, Repr

/-- The zen client calls the reconciler makes, in issue order. `uploadFile`
is a plain `zen.upload_file` call (no version suffix); `reuploadFile` is a
`zen.reupload_file` call with its version argument. -/
inductive Ev
  | create
  | newVersion (zid : Nat)
  | edit (zid : Nat)
  | updateMeta (zid : Nat)
  | publish (zid : Nat)
  | uploadFile (zid : Nat) (filepath : String)
  | reuploadFile (zid : Nat) (filepath : String) (version : Option Nat)
  deriving DecidableEq, Repr

/-- Python exceptions the script itself raises: `keyError` is
`conferences[ismir_paper['year']]` with an unknown year; `unboundLocalError`
is the read of the local `zid` before any assignment (line 74);
`typeError` covers `archive`'s two subscripting errors (lines 119-120). -/
inductive ScriptErr
  | keyError
  | unboundLocalError
  | typeError
  deriving DecidableEq, Repr

/-- Python truthiness of the optional `zenodo_id` field: `None` and `0` are
falsy, every other int is truthy. -/
def zidFalsy : Option Nat → Bool
  | none => true
  | some n => n == 0

/-- The per-paper reconciler `upload(ismir_paper, conferences, stage,
old_zenodo, dry_run)` (upload_to_zenodo_seq.py lines 45-110), embedded over
a remote in which every issued client call succeeds with the replies in
`rem`. Returns the ordered trace of zen client calls together with the
updated paper, or the Python exception aborting the pass. Step by step:
the conference lookup `conferences[ismir_paper['year']]` raises KeyError for
an unknown year; with a falsy `zenodo_id` the script binds
`zid = zen.create_id(stage=stage)`, while with a truthy one it evaluates
`zen.new_version_for_id(zid, stage=stage)` whose argument `zid` is a local
variable not yet assigned — Python raises UnboundLocalError before any call;
when `old_zenodo` is not None it calls `zen.edit` on the old id (never
inspecting the response), builds the obsolete metadata (pure, via
`zen.models`; the `pdb.set_trace()` suspension is modelled as a no-op), then
`zen.update_metadata` and `zen.publish` on the old id; finally, unless
`dry_run`, it calls `zen.upload_file(zid, ismir_paper['ee'])`, rewrites `ee`
to the response's download link, then `zen.update_metadata` and
`zen.publish` on `zid` and writes `doi`, `url` and `zenodo_id` back onto the
paper. -/
def upload (paper : Paper) (confs : String → Option Conf)
    (oldZenodo : Option OldZen) (dryRun : Bool) (rem : Remote) :
    List Ev × Except ScriptErr Paper :=
  match confs paper.year with
  | none => ([], .error .keyError)
  | some _conf =>
    if zidFalsy paper.zenodo_id then
      -- new submission: zid = zen.create_id(stage=stage)
      let zid := rem.createdId
      let oldEvs :=
        match oldZenodo with
        | none => []
        | some oz =>
          [Ev.edit oz.zenodo_id, Ev.updateMeta oz.zenodo_id,
           Ev.publish oz.zenodo_id]
      if dryRun then
        (Ev.create :: oldEvs, .ok paper)
      else
        (Ev.create :: oldEvs
           ++ [Ev.uploadFile zid paper.ee, Ev.updateMeta zid, Ev.publish zid],
         .ok { paper with
                 ee := rem.downloadLink,
                 doi := some rem.publishDoi,
                 url := some rem.publishDoiUrl,
                 zenodo_id := some zid })
    else
      -- update mode: `zen.new_version_for_id(zid, stage=stage)` reads the
      -- unassigned local `zid` — UnboundLocalError, before any client call
      ([], .error .unboundLocalError)

/-- The batch driver `archive(proceedings, conferences, stage, num_cpus,
verbose, dry_run, output)` (upload_to_zenodo_seq.py lines 113-124). Its loop
body, for the first paper already: with a prior output catalog it computes
`old_zenodo = [o for o in output if o['title'] == paper['title']]` (a list)
and then executes `paper['zenodo_id'] = old_zenodo['zenodo_id']` — indexing
a list with a string key, a TypeError; with no prior catalog `old_zenodo` is
None and evaluating `old_zenodo[0]` for the call to `upload` is a TypeError
on None. Either exception propagates (there is no try block), so the loop
never reaches `upload` nor appends to `final`; an empty batch returns the
empty list. -/
def archive (proceedings : List Paper) (confs : String → Option Conf)
    (output : Option (List OldZen)) (dryRun : Bool) (rem : Remote) :
    List Ev × Except ScriptErr (List Paper) :=
  match proceedings with
  | [] => ([], .ok [])
  | paper :: _rest =>
    match output with
    | some out =>
      let _old := out.filter (fun o => o.title == paper.title)
      ([], .error .typeError)
    | none =>
      ([], .error .typeError)

/-! ## Trace observations -/

/-- Is the event a `create_id` call? -/
def isCreateEv : Ev → Bool
  | .create => true
  | _ => false

/-- Is the event a `new_version_for_id` call? -/
def isNewVersionEv : Ev → Bool
  | .newVersion _ => true
  | _ => false

/-- Is the event an `edit` call? -/
def isEditEv : Ev → Bool
  | .edit _ => true
  | _ => false

/-- Is the event an `update_metadata` call? -/
def isUpdateMetaEv : Ev → Bool
  | .updateMeta _ => true
  | _ => false

/-- Is the event a `publish` call? -/
def isPublishEv : Ev → Bool
  | .publish _ => true
  | _ => false

/-- Is the event a plain `upload_file` call? -/
def isUploadEv : Ev → Bool
  | .uploadFile _ _ => true
  | _ => false

/-- Is the event a version-suffixed `reupload_file` call? -/
def isReuploadEv : Ev → Bool
  | .reuploadFile _ _ _ => true
  | _ => false

/-- Number of events of a kind in a trace. -/
def countEv (p : Ev → Bool) (evs : List Ev) : Nat := (evs.filter p).length

/-- Index of the first event satisfying `p` (length of the trace when
absent). -/
def firstIdx (p : Ev → Bool) : List Ev → Nat
  | [] => 0
  | e :: es => if p e then 0 else firstIdx p es + 1

end Script

namespace Script

open Zen

/-! ## Concrete fixtures for witnesses and counterexamples -/

/-- A conference table knowing only the year 2020. -/
def confs0 : String → Option Conf := fun y =>
  if y = ("2020") then some {} else none

/-- A remote answering every client call successfully. -/
def rem0 : Remote :=
  { createdId := 101,
    downloadLink := "https://z/record/101/files/a.pdf",
    publishDoi := "10.5072/zenodo.101",
    publishDoiUrl := "https://doi.org/10.5072/zenodo.101" }

/-- A fresh paper: no remote identifier yet. -/
def paper1 : Paper := { title := "A", year := "2020", ee := "a.pdf" }

/-- A paper already synced once: remote id 7. -/
def paper2b : Paper :=
  { title := "B2", year := "2020", ee := "b2.pdf", zenodo_id := some 7 }

/-- The prior snapshot of `paper2b`, whose remote file checksum "X" equals
the local file's checksum "X". -/
def oz2b : OldZen :=
  { zenodo_id := 7, title := "B2", files := [{ checksum := "X" }] }

/-- The spec scenario paper: title B, remote id 42. -/
def paper4 : Paper :=
  { title := "B", year := "2020", ee := "b.pdf", zenodo_id := some 42 }

/-- The spec scenario snapshot: remote id 42, one file with checksum "X". -/
def oz4 : OldZen :=
  { zenodo_id := 42, title := "B", files := [{ checksum := "X" }] }

/-- An environment with both stage tokens unset. -/
def envNoTok : ApiEnv := { tokens := fun _ => none, online := true }

/-- An environment with tokens set and connectivity up. -/
def envTok : ApiEnv := { tokens := fun _ => some ("secret"), online := true }

/-- A rejection response with status 400. -/
def resp400 : Resp := { status := 400, body := { payload := "bad request" } }

/-- A rejection response with status 503 whose body still carries a
`links.latest_draft` field ending in the numeric id 77. -/
def resp503 : Resp :=
  { status := 503,
    body := { linksLatestDraft := some ("https://z/api/deposit/depositions/77"),
              payload := "overloaded" } }

/-- A fresh paper used in the dry-run counterexample. -/
def paper6 : Paper := { title := "D", year := "2020", ee := "d.pdf" }

/-- A prior snapshot for `paper6`. -/
def oz6 : OldZen := { zenodo_id := 9, title := "D" }

/-- A fresh paper used in the edit-fallback counterexample. -/
def paper8 : Paper := { title := "E", year := "2020", ee := "e.pdf" }

/-- The same paper with its remote id set. -/
def paper8u : Paper :=
  { title := "E", year := "2020", ee := "e.pdf", zenodo_id := some 3 }

/-- A prior snapshot for `paper8`. -/
def oz8 : OldZen := { zenodo_id := 11, title := "E" }

/-- A remote whose edit call is rejected with status 400. -/
def rem8 : Remote :=
  { createdId := 55, downloadLink := "https://z/record/55/files/e.pdf",
    publishDoi := "10.5072/zenodo.55",
    publishDoiUrl := "https://doi.org/10.5072/zenodo.55", editStatus := 400 }

/-- A fresh paper used in the changed-checksum counterexample. -/
def paper9 : Paper := { title := "F", year := "2020", ee := "f.pdf" }

/-- A prior snapshot for `paper9` reporting checksum "X" (the local file's
checksum being "Y"). -/
def oz9 : OldZen :=
  { zenodo_id := 12, title := "F", files := [{ checksum := "X" }] }

end Script

namespace Script

open Zen

/-! ## Claim C1 -/

/-- C1: for every paper record with no prior remote snapshot and no remote
identifier set, one (non-dry-run) reconciliation pass performs exactly one
create call, exactly one file-upload call and exactly one publish call, with
the create strictly before the upload and the upload strictly before the
publish, and returns the record updated with the new remote id, DOI and
URL. -/
theorem claim1_fresh_one_create_one_upload_one_publish (paper : Paper)
    (confs : String → Option Conf) (rem : Remote) (c : Conf)
    (hc : confs paper.year = some c)
    (hzid : zidFalsy paper.zenodo_id = true) :
    countEv isCreateEv (upload paper confs none false rem).1 = 1 ∧
    countEv isUploadEv (upload paper confs none false rem).1 = 1 ∧
    countEv isPublishEv (upload paper confs none false rem).1 = 1 ∧
    firstIdx isCreateEv (upload paper confs none false rem).1 <
      firstIdx isUploadEv (upload paper confs none false rem).1 ∧
    firstIdx isUploadEv (upload paper confs none false rem).1 <
      firstIdx isPublishEv (upload paper confs none false rem).1 ∧
    (upload paper confs none false rem).2 =
      .ok { paper with
              ee := rem.downloadLink,
              doi := some rem.publishDoi,
              url := some rem.publishDoiUrl,
              zenodo_id := some rem.createdId } := by
  have h1 : (upload paper confs none false rem).1 =
      [Ev.create, Ev.uploadFile rem.createdId paper.ee,
       Ev.updateMeta rem.createdId, Ev.publish rem.createdId] := by
    simp [upload, hc, hzid]
  have h2 : (upload paper confs none false rem).2 =
      .ok { paper with
              ee := rem.downloadLink,
              doi := some rem.publishDoi,
              url := some rem.publishDoiUrl,
              zenodo_id := some rem.createdId } := by
    simp [upload, hc, hzid]
  rw [h1, h2]
  refine ⟨rfl, rfl, rfl, ?_, ?_, rfl⟩
  · norm_num [firstIdx, isCreateEv, isUploadEv]
  · norm_num [firstIdx, isUploadEv, isPublishEv]

/-- Witness for C1 at the concrete fresh paper `paper1`. -/
theorem claim1_fresh_one_create_one_upload_one_publish_witness :
    countEv isCreateEv (upload paper1 confs0 none false rem0).1 = 1 ∧
    countEv isUploadEv (upload paper1 confs0 none false rem0).1 = 1 ∧
    countEv isPublishEv (upload paper1 confs0 none false rem0).1 = 1 ∧
    firstIdx isCreateEv (upload paper1 confs0 none false rem0).1 <
      firstIdx isUploadEv (upload paper1 confs0 none false rem0).1 ∧
    firstIdx isUploadEv (upload paper1 confs0 none false rem0).1 <
      firstIdx isPublishEv (upload paper1 confs0 none false rem0).1 ∧
    (upload paper1 confs0 none false rem0).2 =
      .ok { paper1 with
              ee := rem0.downloadLink,
              doi := some rem0.publishDoi,
              url := some rem0.publishDoiUrl,
              zenodo_id := some rem0.createdId } :=
  claim1_fresh_one_create_one_upload_one_publish paper1 confs0 rem0 {}
    (by decide) (by decide)

/-! ## Claim C2 -/

/-- C2 (code-bug evidence): a paper with an existing remote snapshot whose
remote-reported checksum "X" equals the local file's checksum "X". The claim
— and the code's own comment at lines 71-73 ("If the checksum is different,
re-upload the pdf; Update the metadata regardless") — calls for zero uploads,
one metadata-update and one publish; the code instead raises
UnboundLocalError at `zen.new_version_for_id(zid, stage=stage)` (line 74),
where the local `zid` is only ever assigned in the other branch, before any
client call: the pass makes no calls at all and produces no record. -/
theorem claim2_unchanged_checksum_update_mode_crashes :
    oz2b.files.map FileRec.checksum = ["X"] ∧
    upload paper2b confs0 (some oz2b) false rem0 =
      ([], .error ScriptErr.unboundLocalError) :=
  ⟨rfl, rfl⟩

/-! ## Claim C3 -/

/-- C3: on every non-empty proceedings batch — whether or not a prior output
catalog exists — `archive` fails with a TypeError before completing the
first paper (with no prior catalog it subscripts None via `old_zenodo[0]`;
with one it indexes the list of title matches with the string key
`zenodo_id`), makes no client calls, and never returns a result list. -/
theorem claim3_archive_nonempty_type_error (proceedings : List Paper)
    (confs : String → Option Conf) (output : Option (List OldZen))
    (dryRun : Bool) (rem : Remote) (h : proceedings ≠ []) :
    (archive proceedings confs output dryRun rem).2 =
      .error ScriptErr.typeError ∧
    (archive proceedings confs output dryRun rem).1 = [] := by
  cases proceedings with
  | nil => exact absurd rfl h
  | cons p rest => cases output <;> simp [archive]

/-- Witness for C3 on a one-paper batch with a prior (empty) catalog. -/
theorem claim3_archive_nonempty_type_error_witness :
    (archive [paper1] confs0 (some []) false rem0).2 =
      .error ScriptErr.typeError ∧
    (archive [paper1] confs0 (some []) false rem0).1 = [] :=
  claim3_archive_nonempty_type_error [paper1] confs0 (some []) false rem0
    (by decide)

/-! ## Claim C4 -/

/-- C4 (code-bug evidence): the spec scenario — paper with title B and
remote id 42, prior snapshot with remote id 42 and file checksum "X", local
checksum "X" — should output the record still carrying remote id 42, with
zero uploads and one publish; the code raises UnboundLocalError at line 74
and produces no output record at all, so no identifier is preserved. -/
theorem claim4_resync_same_id_crashes :
    paper4.zenodo_id = some 42 ∧ oz4.zenodo_id = 42 ∧
    oz4.files.map FileRec.checksum = ["X"] ∧
    upload paper4 confs0 (some oz4) false rem0 =
      ([], .error ScriptErr.unboundLocalError) :=
  ⟨rfl, rfl, rfl, rfl⟩

end Script

namespace Script

open Zen

/-! ## Claim C5 -/

/-- C5: when the requested stage's credential token is unset, every remote
client operation fails with the `EnvironmentError` configuration failure
having issued zero HTTP requests (in particular not even the connectivity
probe), and that failure is a different exception, of a different Python
class, from the offline `ZenodoApiError`. -/
theorem claim5_unset_token_config_error_zero_requests (env : ApiEnv)
    (s : Stage) (zid : Nat) (fp : String) (hasFp : Bool)
    (version : Option Nat) (resp : Resp) (h : env.tokens s = none) :
    create_id env (some s) resp = ([], .error (.envError s)) ∧
    new_version_for_id env zid (some s) resp = ([], .error (.envError s)) ∧
    upload_file env zid fp hasFp (some s) resp = ([], .error (.envError s)) ∧
    reupload_file env zid fp hasFp version (some s) resp =
      ([], .error (.envError s)) ∧
    update_metadata env zid (some s) resp = ([], .error (.envError s)) ∧
    publish env zid (some s) resp = ([], .error (.envError s)) ∧
    edit env zid (some s) resp = ([], .error (.envError s)) ∧
    Zen.get env zid (some s) resp = ([], .error (.envError s)) ∧
    list_items env (some s) resp = ([], .error (.envError s)) ∧
    ApiFailure.envError s ≠ ApiFailure.offline ∧
    failureClass (.envError s) ≠ failureClass .offline := by
  have hn : (env.tokens s).isNone = true := by simp [h]
  refine ⟨?_, ?_, ?_, ?_, ?_, ?_, ?_, ?_, ?_, ?_, ?_⟩ <;>
    simp [create_id, new_version_for_id, upload_file, reupload_file,
          update_metadata, publish, edit, Zen.get, list_items, withVerify, hn,
          failureClass]

/-- Witness for C5: both tokens unset, a call on the dev stage. -/
theorem claim5_unset_token_config_error_zero_requests_witness :
    create_id envNoTok (some .dev) resp400 =
      ([], .error (.envError .dev)) ∧
    new_version_for_id envNoTok 5 (some .dev) resp400 =
      ([], .error (.envError .dev)) ∧
    upload_file envNoTok 5 ("a.pdf") false (some .dev) resp400 =
      ([], .error (.envError .dev)) ∧
    reupload_file envNoTok 5 ("a.pdf") false none (some .dev) resp400 =
      ([], .error (.envError .dev)) ∧
    update_metadata envNoTok 5 (some .dev) resp400 =
      ([], .error (.envError .dev)) ∧
    publish envNoTok 5 (some .dev) resp400 = ([], .error (.envError .dev)) ∧
    edit envNoTok 5 (some .dev) resp400 = ([], .error (.envError .dev)) ∧
    Zen.get envNoTok 5 (some .dev) resp400 = ([], .error (.envError .dev)) ∧
    list_items envNoTok (some .dev) resp400 =
      ([], .error (.envError .dev)) ∧
    ApiFailure.envError .dev ≠ ApiFailure.offline ∧
    failureClass (.envError .dev) ≠ failureClass .offline :=
  claim5_unset_token_config_error_zero_requests envNoTok .dev 5 ("a.pdf")
    false none resp400 rfl

/-! ## Claim C6 -/

/-- C6 counterexample: in dry-run mode with a prior remote snapshot, the
pass still performs one metadata-update, one publish and one edit call on
the old record — not the zero metadata-update and zero publish calls the
claim states for dry-run regardless of snapshot. (File uploads are indeed
zero.) -/
theorem claim6_dry_run_still_publishes_counterexample :
    countEv isUpdateMetaEv (upload paper6 confs0 (some oz6) true rem0).1 = 1 ∧
    countEv isPublishEv (upload paper6 confs0 (some oz6) true rem0).1 = 1 ∧
    countEv isEditEv (upload paper6 confs0 (some oz6) true rem0).1 = 1 ∧
    countEv isUploadEv (upload paper6 confs0 (some oz6) true rem0).1 = 0 :=
  ⟨rfl, rfl, rfl, rfl⟩

/-- C6 (amended): dry-run still returns the (unmodified) paper record and
issues zero file-upload calls; with no prior snapshot it issues zero
metadata-update and zero publish calls as well (only the create call); but
with a prior snapshot it still issues exactly one edit, one metadata-update
and one publish call on the old record. -/
theorem claim6_dry_run_trace (paper : Paper) (confs : String → Option Conf)
    (oldZ : Option OldZen) (rem : Remote) (c : Conf)
    (hc : confs paper.year = some c)
    (hzid : zidFalsy paper.zenodo_id = true) :
    (upload paper confs oldZ true rem).2 = .ok paper ∧
    countEv isUploadEv (upload paper confs oldZ true rem).1 = 0 ∧
    (oldZ = none →
      countEv isUpdateMetaEv (upload paper confs oldZ true rem).1 = 0 ∧
      countEv isPublishEv (upload paper confs oldZ true rem).1 = 0) ∧
    (∀ oz, oldZ = some oz →
      countEv isEditEv (upload paper confs oldZ true rem).1 = 1 ∧
      countEv isUpdateMetaEv (upload paper confs oldZ true rem).1 = 1 ∧
      countEv isPublishEv (upload paper confs oldZ true rem).1 = 1) := by
  cases oldZ <;>
    simp [upload, hc, hzid, countEv, List.filter, isUploadEv,
          isUpdateMetaEv, isPublishEv, isEditEv]

/-- Witness for the amended C6 at a concrete snapshot. -/
theorem claim6_dry_run_trace_witness :
    (upload paper6 confs0 (some oz6) true rem0).2 = .ok paper6 ∧
    countEv isUploadEv (upload paper6 confs0 (some oz6) true rem0).1 = 0 ∧
    ((some oz6 : Option OldZen) = none →
      countEv isUpdateMetaEv (upload paper6 confs0 (some oz6) true rem0).1 = 0 ∧
      countEv isPublishEv (upload paper6 confs0 (some oz6) true rem0).1 = 0) ∧
    (∀ oz, (some oz6 : Option OldZen) = some oz →
      countEv isEditEv (upload paper6 confs0 (some oz6) true rem0).1 = 1 ∧
      countEv isUpdateMetaEv (upload paper6 confs0 (some oz6) true rem0).1 = 1 ∧
      countEv isPublishEv (upload paper6 confs0 (some oz6) true rem0).1 = 1) :=
  claim6_dry_run_trace paper6 confs0 (some oz6) rem0 {} (by decide) (by decide)

end Script

namespace Script

open Zen

/-! ## Claim C7 -/

/-- C7 counterexample: `reupload_file` answered with HTTP status 400 — which
is ≥ 300 — returns the response body normally instead of raising the API
error: its status check (zen/api.py line 200) exempts 400. -/
theorem claim7_reupload_400_not_raised_counterexample :
    300 ≤ resp400.status ∧
    (reupload_file envTok 5 ("b.pdf") false none (some .dev) resp400).2 =
      .ok resp400.body :=
  ⟨by norm_num [resp400], rfl⟩

/-- C7 (amended): for create, upload-file, update-metadata, publish, fetch
and list, the call raises the API error carrying the response body iff the
HTTP status is ≥ 300. The two exceptions: `reupload_file` raises it iff the
status is ≥ 300 AND not 400; and `new_version_for_id` reads
`links.latest_draft` out of the body before any status check, so its
equivalence holds when that field is present with a parseable numeric last
segment — when the field is absent it raises a KeyError instead, whatever
the status. -/
theorem claim7_api_error_iff_status_ge_300 (env : ApiEnv) (s : Stage)
    (tok : String) (zid : Nat) (fp : String) (hasFp : Bool)
    (version : Option Nat) (resp : Resp) (url : String) (nid : Nat)
    (htok : env.tokens s = some tok) (hon : env.online = true)
    (hurl : resp.body.linksLatestDraft = some url)
    (hnum : natOfString? (lastPathSeg url) = some nid) :
    ((create_id env (some s) resp).2 = .error (.apiRespError resp.body) ↔
      300 ≤ resp.status) ∧
    ((upload_file env zid fp hasFp (some s) resp).2 =
        .error (.apiRespError resp.body) ↔ 300 ≤ resp.status) ∧
    ((update_metadata env zid (some s) resp).2 =
        .error (.apiRespError resp.body) ↔ 300 ≤ resp.status) ∧
    ((publish env zid (some s) resp).2 =
        .error (.apiRespError resp.body) ↔ 300 ≤ resp.status) ∧
    ((Zen.get env zid (some s) resp).2 =
        .error (.apiRespError resp.body) ↔ 300 ≤ resp.status) ∧
    ((list_items env (some s) resp).2 =
        .error (.apiRespError resp.body) ↔ 300 ≤ resp.status) ∧
    ((new_version_for_id env zid (some s) resp).2 =
        .error (.apiRespError resp.body) ↔ 300 ≤ resp.status) ∧
    ((reupload_file env zid fp hasFp version (some s) resp).2 =
        .error (.apiRespError resp.body) ↔
      300 ≤ resp.status ∧ resp.status ≠ 400) ∧
    (∀ r2 : Resp, r2.body.linksLatestDraft = none →
      (new_version_for_id env zid (some s) r2).2 =
        .error (.keyError ("links"))) := by
  have hn : (env.tokens s).isNone = false := by simp [htok]
  refine ⟨?_, ?_, ?_, ?_, ?_, ?_, ?_, ?_, ?_⟩
  · simp [create_id, withVerify, hn, hon]
  · simp [upload_file, withVerify, hn, hon]
  · simp [update_metadata, withVerify, hn, hon]
  · simp [publish, withVerify, hn, hon]
  · simp [Zen.get, withVerify, hn, hon]
  · simp [list_items, withVerify, hn, hon]
  · simp [new_version_for_id, withVerify, hn, hon, hurl, hnum]
  · simp [reupload_file, withVerify, hn, hon]
  · intro r2 h2
    simp [new_version_for_id, withVerify, hn, hon, h2]

/-- Witness for the amended C7 at a rejected (status 503) response whose
body still carries `links.latest_draft` ending in 77. -/
theorem claim7_api_error_iff_status_ge_300_witness :
    ((create_id envTok (some .dev) resp503).2 =
        .error (.apiRespError resp503.body) ↔ 300 ≤ resp503.status) ∧
    ((upload_file envTok 5 ("b.pdf") false (some .dev) resp503).2 =
        .error (.apiRespError resp503.body) ↔ 300 ≤ resp503.status) ∧
    ((update_metadata envTok 5 (some .dev) resp503).2 =
        .error (.apiRespError resp503.body) ↔ 300 ≤ resp503.status) ∧
    ((publish envTok 5 (some .dev) resp503).2 =
        .error (.apiRespError resp503.body) ↔ 300 ≤ resp503.status) ∧
    ((Zen.get envTok 5 (some .dev) resp503).2 =
        .error (.apiRespError resp503.body) ↔ 300 ≤ resp503.status) ∧
    ((list_items envTok (some .dev) resp503).2 =
        .error (.apiRespError resp503.body) ↔ 300 ≤ resp503.status) ∧
    ((new_version_for_id envTok 5 (some .dev) resp503).2 =
        .error (.apiRespError resp503.body) ↔ 300 ≤ resp503.status) ∧
    ((reupload_file envTok 5 ("b.pdf") false none (some .dev) resp503).2 =
        .error (.apiRespError resp503.body) ↔
      300 ≤ resp503.status ∧ resp503.status ≠ 400) ∧
    (∀ r2 : Resp, r2.body.linksLatestDraft = none →
      (new_version_for_id envTok 5 (some .dev) r2).2 =
        .error (.keyError ("links"))) :=
  claim7_api_error_iff_status_ge_300 envTok .dev ("secret") 5 ("b.pdf")
    false none resp503 ("https://z/api/deposit/depositions/77") 77
    rfl rfl rfl (by decide)

end Script

namespace Script

open Zen

/-! ## Claim C8 -/

/-- C8 counterexample: a sync with a prior remote snapshot whose edit call
is rejected (status 400 recorded in `rem8.editStatus`): the pass's first
client call is create — not edit — and no new-version call ever occurs; the
reconciler has no edit-first / fall-back-on-rejection protocol. -/
theorem claim8_no_edit_first_no_fallback_counterexample :
    rem8.editStatus = 400 ∧
    (upload paper8 confs0 (some oz8) false rem8).1.head? = some Ev.create ∧
    countEv isNewVersionEv (upload paper8 confs0 (some oz8) false rem8).1 = 0 :=
  ⟨rfl, rfl, rfl⟩

/-- C8 (amended): the edit client operation is indeed non-fatal — it returns
the raw response for every HTTP status, never raising — but the reconciler
has no edit-first/fallback protocol: on a pass with a prior snapshot and no
remote id it calls edit exactly once, unconditionally, after the create call
(the first call of the trace), and performs zero new-version calls whatever
the edit response status; on a pass with the remote id set it raises
UnboundLocalError at line 74 before any client call. -/
theorem claim8_edit_nonfatal_but_no_fallback (env : ApiEnv) (s : Stage)
    (tok : String) (ezid : Nat) (resp : Resp)
    (htok : env.tokens s = some tok) (hon : env.online = true)
    (paper : Paper) (confs : String → Option Conf) (oz : OldZen)
    (rem : Remote) (c : Conf) (hc : confs paper.year = some c)
    (hzid : zidFalsy paper.zenodo_id = true)
    (paperU : Paper) (hzidU : zidFalsy paperU.zenodo_id = false)
    (cU : Conf) (hcU : confs paperU.year = some cU) :
    (edit env ezid (some s) resp).2 = .ok resp ∧
    countEv isEditEv (upload paper confs (some oz) false rem).1 = 1 ∧
    (upload paper confs (some oz) false rem).1.head? = some Ev.create ∧
    countEv isNewVersionEv (upload paper confs (some oz) false rem).1 = 0 ∧
    upload paperU confs (some oz) false rem =
      ([], .error ScriptErr.unboundLocalError) := by
  have hn : (env.tokens s).isNone = false := by simp [htok]
  refine ⟨?_, ?_, ?_, ?_, ?_⟩
  · simp [edit, withVerify, hn, hon]
  · simp [upload, hc, hzid, countEv, List.filter, isEditEv]
  · simp [upload, hc, hzid]
  · simp [upload, hc, hzid, countEv, List.filter, isNewVersionEv]
  · simp [upload, hcU, hzidU]

/-- Witness for the amended C8 at concrete inputs (`paper8` fresh, `paper8u`
with remote id 3, edit rejected with status 400). -/
theorem claim8_edit_nonfatal_but_no_fallback_witness :
    (edit envTok 11 (some .dev) resp400).2 = .ok resp400 ∧
    countEv isEditEv (upload paper8 confs0 (some oz8) false rem8).1 = 1 ∧
    (upload paper8 confs0 (some oz8) false rem8).1.head? = some Ev.create ∧
    countEv isNewVersionEv (upload paper8 confs0 (some oz8) false rem8).1 = 0 ∧
    upload paper8u confs0 (some oz8) false rem8 =
      ([], .error ScriptErr.unboundLocalError) :=
  claim8_edit_nonfatal_but_no_fallback envTok .dev ("secret") 11 resp400
    rfl rfl paper8 confs0 oz8 rem8 {} (by decide) (by decide)
    paper8u (by decide) {} (by decide)

/-! ## Claim C9 -/

/-- C9 counterexample: the snapshot reports checksum "X" for the remote's
current file while the local file's checksum is "Y" (no checksum is ever
computed by the code); the pass performs its single upload as a plain
`upload_file` call carrying the bare file path — no version suffix derived
from any previous filename — and zero `reupload_file` calls. -/
theorem claim9_changed_checksum_no_version_suffix_counterexample :
    oz9.files.map FileRec.checksum = ["X"] ∧ ("Y" : String) ≠ ("X") ∧
    (upload paper9 confs0 (some oz9) false rem0).1.filter isUploadEv =
      [Ev.uploadFile rem0.createdId ("f.pdf")] ∧
    countEv isReuploadEv (upload paper9 confs0 (some oz9) false rem0).1 = 0 :=
  ⟨rfl, by decide, rfl, rfl⟩

/-- C9 (amended): the reconciler never compares checksums and never derives
a version number from a previous filename suffix: whatever the snapshot's
reported checksums (and whatever the local file's checksum would be), every
non-dry-run pass over a paper with no remote id performs exactly one file
upload, a plain `upload_file` call on the paper's own file path with no
version suffix, and zero `reupload_file` calls. (Version-suffix naming
exists only inside the client's `reupload_file`, fed by its caller-supplied
`version` argument, and the reconciler never calls it.) -/
theorem claim9_upload_always_plain_never_versioned (paper : Paper)
    (confs : String → Option Conf) (oldZ : Option OldZen) (rem : Remote)
    (c : Conf) (hc : confs paper.year = some c)
    (hzid : zidFalsy paper.zenodo_id = true) :
    (upload paper confs oldZ false rem).1.filter isUploadEv =
      [Ev.uploadFile rem.createdId paper.ee] ∧
    countEv isReuploadEv (upload paper confs oldZ false rem).1 = 0 := by
  cases oldZ <;>
    simp [upload, hc, hzid, countEv, List.filter, isUploadEv, isReuploadEv]

/-- Witness for the amended C9 at `paper9` with snapshot `oz9`. -/
theorem claim9_upload_always_plain_never_versioned_witness :
    (upload paper9 confs0 (some oz9) false rem0).1.filter isUploadEv =
      [Ev.uploadFile rem0.createdId paper9.ee] ∧
    countEv isReuploadEv (upload paper9 confs0 (some oz9) false rem0).1 = 0 :=
  claim9_upload_always_plain_never_versioned paper9 confs0 (some oz9) rem0
    {} (by decide) (by decide)

/-! ## Claim C10 -/

/-- C10: `ZenodoApiError` is declared as a subclass of `BaseException`, not
of `Exception`; hence every client failure raised as a `ZenodoApiError` — a
remote rejection or the offline check — is not intercepted by a handler
catching only `Exception`. -/
theorem claim10_zenodo_api_error_escapes_exception_handlers (f : ApiFailure)
    (h : isZenodoApiFailure f = true) :
    isSubclassOf .zenodoApiError .baseException = true ∧
    isSubclassOf .zenodoApiError .exception = false ∧
    handlerCatches .exception (failureClass f) = false := by
  cases f <;> simp_all [isZenodoApiFailure, failureClass, handlerCatches,
    isSubclassOf, ancestorsFrom, pyBase]

/-- Witness for C10 at the offline failure. -/
theorem claim10_zenodo_api_error_escapes_exception_handlers_witness :
    isSubclassOf .zenodoApiError .baseException = true ∧
    isSubclassOf .zenodoApiError .exception = false ∧
    handlerCatches .exception (failureClass ApiFailure.offline) = false :=
  claim10_zenodo_api_error_escapes_exception_handlers ApiFailure.offline rfl

end Script
